import Mathlib

/-!
Shallow embedding of the interactive quiz session controller of
`src/cli/bijbelquiz_cli.py` (class `QuizGame` and the pieces of
`BijbelQuizAPI` it calls), together with theorems checking the
specification claims about it.

Modelling conventions:
* Python `int` is `Int`; the two round counters, which start at `0` and are
  only ever incremented, are `Nat`.
* The interactive input stream is an explicit list of `InputEvent`s: each
  event is either a typed line or a `KeyboardInterrupt` delivered while the
  program is blocked on `input()`.  A function that would block forever
  (stream exhausted) returns `none` / a `blocked` marker.
* `sys.exit(n)` raises `SystemExit`, which in Python derives from
  `BaseException`, not `Exception`; it is therefore NOT caught by an
  `except Exception` handler nor by an `except KeyboardInterrupt` handler.
  We model it as an explicit `exited n` outcome that propagates past those
  handlers.
* The network is an explicit environment value describing how the single
  `stars/add` POST of a session behaves.
-/

namespace BijbelQuiz

/-- The `difficulty` field of a `QuizQuestion` as it arrives in the JSON
question record: either a JSON integer or its textual representation. -/
inductive DifficultyValue where
| ofInt (n : Int)
| ofStr (s : String)
deriving DecidableEq

/-- Python `str.strip()`: remove leading and trailing whitespace. -/
def pyStrip (s : String) : String :=
  ⟨((s.data.dropWhile Char.isWhitespace).reverse.dropWhile Char.isWhitespace).reverse⟩

/-- Python `str.lower()` (the quiz only ever compares ASCII strings). -/
def pyLower (s : String) : String := ⟨s.data.map Char.toLower⟩

/-- Value of a run of decimal digits. -/
def digitsToNat (ds : List Char) : Nat :=
  ds.foldl (fun n c => n * 10 + (c.toNat - 48)) 0

/-- Python `int(s)` for strings: optional surrounding whitespace, an
optional sign, then one or more decimal digits; anything else raises
`ValueError`, modelled as `none`.  (Underscore digit separators, which the
quiz never produces, are not modelled.) -/
def pyInt? (s : String) : Option Int :=
  match (pyStrip s).data with
  | '-' :: ds =>
      if ds ≠ [] ∧ ds.all Char.isDigit then some (-(digitsToNat ds : Int)) else none
  | '+' :: ds =>
      if ds ≠ [] ∧ ds.all Char.isDigit then some (digitsToNat ds) else none
  | ds =>
      if ds ≠ [] ∧ ds.all Char.isDigit then some (digitsToNat ds) else none

/-- Line 207 / line 233 of the source:
`difficulty = int(question.difficulty) if isinstance(question.difficulty, str) else question.difficulty`.
Python `int()` on a non-numeric string raises `ValueError`, modelled as
`none`. -/
def coerceDifficulty : DifficultyValue → Option Int
| .ofInt n => some n
| .ofStr s => pyInt? s

/-- The `QuizQuestion` dataclass (source lines 137-148).  The fields used
only for display (`question`, `incorrectAnswers`, `type`, `categories`,
`biblicalReference`) are kept for shape but do not influence scoring. -/
structure QuizQuestion where
  question : String
  correctAnswer : String
  incorrectAnswers : List String
  difficulty : DifficultyValue
  qtype : String
  categories : List String
  biblicalReference : String
  allOptions : List String
  correctAnswerIndex : Int
deriving DecidableEq

/-- The mutable counters of `QuizGame` (source lines 156-159):
`self.score`, `self.total_questions`, `self.correct_answers`,
`self.stars_earned`. -/
structure SessionState where
  score : Int
  total_questions : Nat
  correct_answers : Nat
  stars_earned : Int
deriving DecidableEq

/-- `QuizGame.__init__` sets all four counters to zero. -/
def initState : SessionState := ⟨0, 0, 0, 0⟩

/-- One event on the interactive input stream: a line typed at an `input()`
prompt, or a `KeyboardInterrupt` delivered while blocked at the prompt. -/
inductive InputEvent where
| line (s : String)
| interrupt
deriving DecidableEq

/-- `input(prompt).strip().lower()` (source line 181). -/
def normalize (s : String) : String := pyLower (pyStrip s)

/-- What `QuizGame.get_user_input` produces: a validated choice string, or a
process exit (`sys.exit(0)` from its `except KeyboardInterrupt` handler,
source lines 186-188). -/
inductive InputResult where
| choice (s : String)
| exited (code : Int)
deriving DecidableEq

/-- `QuizGame.get_user_input` (source lines 177-188): loop reading lines,
re-prompting while `valid_choices` is truthy (non-empty) and the normalized
input is not in it; a `KeyboardInterrupt` at the prompt is answered with
`sys.exit(0)`.  Returns the result together with the unconsumed remainder
of the stream; `none` models the blocking wait when the stream is
exhausted. -/
def get_user_input (valid_choices : List String) :
    List InputEvent → Option (InputResult × List InputEvent)
| [] => none
| .interrupt :: rest => some (.exited 0, rest)
| .line s :: rest =>
    let u := normalize s
    if valid_choices.isEmpty ∨ u ∈ valid_choices then some (.choice u, rest)
    else get_user_input valid_choices rest

/-- `valid_choices = [str(i) for i in range(1, len(question.allOptions) + 1)]`
(source line 222). -/
def valid_choices (q : QuizQuestion) : List String :=
  (List.range q.allOptions.length).map (fun i => toString (i + 1))

/-- Python list subscription `xs[i]`, including the negative-index
wraparound; an `IndexError` is modelled as `none`. -/
def pyIndex? (xs : List String) (i : Int) : Option String :=
  let j : Int := if i < 0 then (xs.length : Int) + i else i
  if 0 ≤ j ∧ j < (xs.length : Int) then xs.get? j.toNat else none

/-- The statistics update of `QuizGame.play_round` (source lines 235-244):
`points = difficulty * 10`; `stars = difficulty if is_correct else 0`;
`total_questions` always increments; `correct_answers`, `score`,
`stars_earned` increment only when correct. -/
def round_update (st : SessionState) (difficulty : Int) (is_correct : Bool) :
    SessionState :=
  let points := difficulty * 10
  let stars := if is_correct then difficulty else 0
  let st' := { st with total_questions := st.total_questions + 1 }
  if is_correct then
    { st' with
        correct_answers := st'.correct_answers + 1,
        score := st'.score + points,
        stars_earned := st'.stars_earned + stars }
  else st'

/-- Outcome of one `QuizGame.play_round` call. -/
inductive RoundResult where
| answered (st : SessionState) (is_correct : Bool) (rest : List InputEvent)
| exited (code : Int)
| blocked
| error
deriving DecidableEq

/-- `QuizGame.play_round` (source lines 217-265).  `display_question`
coerces the difficulty (line 207) before the prompt, so a malformed
difficulty string raises (`error`) before any input is read; the same
coercion is repeated at line 233 with the same result.  The selected
option string is parsed with `int(choice)` (line 225) and compared 0-based
against `correctAnswerIndex` (line 230); the state update is
`round_update`.  Display and the fixed sleep have no effect on state. -/
def play_round (st : SessionState) (q : QuizQuestion)
    (inputs : List InputEvent) : RoundResult :=
  match coerceDifficulty q.difficulty with
  | none => .error
  | some difficulty =>
    match get_user_input (valid_choices q) inputs with
    | none => .blocked
    | some (.exited c, _) => .exited c
    | some (.choice choice, rest) =>
      match pyInt? choice with
      | none => .error
      | some k =>
        let user_answer_index : Int := k - 1
        match pyIndex? q.allOptions user_answer_index with
        | none => .error
        | some _user_answer =>
          let is_correct : Bool := decide (user_answer_index = q.correctAnswerIndex)
          .answered (round_update st difficulty is_correct) is_correct rest

/-- Outcome of the question loop of `QuizGame.start` (source lines 319-327). -/
inductive GameEnd where
| finished (st : SessionState) (rest : List InputEvent)
| exited (code : Int)
| blocked
| error
deriving DecidableEq

/-- The `for i, question_data in enumerate(questions, 1)` loop of
`QuizGame.start` (source lines 319-327): play each question; after an
incorrect answer on any round but the last (`i < len(questions)`), ask
`Continue playing? (y/n)` with valid choices `y/n/yes/no`; `n` or `no`
breaks out of the loop.  A `sys.exit` raised inside `get_user_input`
propagates (`SystemExit` is neither a `KeyboardInterrupt` nor an
`Exception`), as does any other exception (`error`). -/
def play_questions :
    SessionState → List QuizQuestion → List InputEvent → GameEnd
| st, [], inputs => .finished st inputs
| st, q :: qs, inputs =>
  match play_round st q inputs with
  | .error => .error
  | .blocked => .blocked
  | .exited c => .exited c
  | .answered st' true rest => play_questions st' qs rest
  | .answered st' false rest =>
    match qs with
    | [] => .finished st' rest
    | _ :: _ =>
      match get_user_input ["y", "n", "yes", "no"] rest with
      | none => .blocked
      | some (.exited c, _) => .exited c
      | some (.choice c, rest') =>
        if c = "n" ∨ c = "no" then .finished st' rest'
        else play_questions st' qs rest'

/-- The `stars/add` request body built by `BijbelQuizAPI.add_stars`
(source lines 109-114) from the call at lines 284-287: `amount` and the
reason `f"Quiz game completed - {correct}/{total} correct"`.
No `lessonId` is passed from the game flow. -/
structure Submission where
  amount : Int
  reason : String
deriving DecidableEq

/-- The reason string of the reward submission (source line 286). -/
def reward_reason (correct total : Nat) : String :=
  "Quiz game completed - " ++ toString correct ++ "/" ++ toString total ++ " correct"

/-- How the single `stars/add` POST of a session behaves, as seen from
inside `BijbelQuizAPI._post` (source lines 56-78). -/
inductive PostEnv where
| ok (success : Bool) (balance : Option Int)
| httpError (code : Nat)
| urlError
| decodeError
deriving DecidableEq

/-- What `_post` does in each case (source lines 56-78): a 2xx response
with a JSON body is decoded and returned; an `HTTPError` (non-2xx), a
`URLError` (transport failure) and any other exception each print to
stderr and call `sys.exit(1)`.  `sys.exit` raises `SystemExit`, which is a
`BaseException` and not an `Exception`, so no `except Exception` handler
in a caller can catch it. -/
inductive PostResult where
| returned (success : Bool) (balance : Option Int)
| exitedProcess
deriving DecidableEq

/-- Behaviour of `_post` for the `stars/add` call. -/
def post_add_stars : PostEnv → PostResult
| .ok success balance => .returned success balance
| .httpError _ => .exitedProcess
| .urlError => .exitedProcess
| .decodeError => .exitedProcess

/-- Result of `QuizGame.end_game`: the summary completed (with the
submission request that was sent, if any, and whether a warning line was
printed), or the process exited from inside `_post`. -/
inductive EndGameOutcome where
| completed (submission : Option Submission) (warned : Bool) (st : SessionState)
| exited (code : Int)
deriving DecidableEq

/-- The accuracy computed by `QuizGame.end_game` (source line 272):
`(self.correct_answers / self.total_questions * 100) if self.total_questions > 0 else 0`,
modelled over the exact rationals.  The `:.1f` format then renders this
value to one decimal place. -/
def accuracy (st : SessionState) : ℚ :=
  if st.total_questions > 0 then
    (st.correct_answers : ℚ) / (st.total_questions : ℚ) * 100
  else 0

/-- `QuizGame.end_game` (source lines 267-295): render the summary from the
(unchanged) session state; if `stars_earned > 0`, call `add_stars`.  The
`try/except Exception` around the call prints a warning on an `Exception`,
but `_post` never raises one: it either returns the decoded body — a falsy
`success` field produces the warning at line 291 — or raises `SystemExit`,
which escapes the handler and aborts the process. -/
def end_game (st : SessionState) (env : PostEnv) : EndGameOutcome :=
  if st.stars_earned > 0 then
    let sub : Submission :=
      ⟨st.stars_earned, reward_reason st.correct_answers st.total_questions⟩
    match post_add_stars env with
    | .exitedProcess => .exited 1
    | .returned success _balance => .completed (some sub) (!success) st
  else
    .completed none false st

/-- Overall outcome of `QuizGame.start`. -/
inductive GameOutcome where
| noQuestions
| done (endOutcome : EndGameOutcome)
| exited (code : Int)
| errorMessage
| blocked
deriving DecidableEq

/-- `QuizGame.start` (source lines 297-337).  The fetched batch is `none`
when the response has no `questions` key and `some qs` otherwise (an empty
list is falsy in Python, so both cases print `No questions available` and
return without starting a session, lines 310-312).  Otherwise the question
loop runs from the zeroed counters and a normal or early-stopped loop falls
through to `end_game`.  In this embedding interrupts are delivered at
`input()` prompts, where `get_user_input` converts them to `sys.exit(0)`;
that `SystemExit` is not caught by the `except KeyboardInterrupt` handler
at line 332 (which only fires for interrupts delivered outside
`get_user_input`, e.g. during `time.sleep`), so it terminates the process.
Any other exception lands in `except Exception` (lines 335-337), which
prints an error and returns without calling `end_game`. -/
def start (fetch : Option (List QuizQuestion)) (inputs : List InputEvent)
    (env : PostEnv) : GameOutcome :=
  match fetch with
  | none => .noQuestions
  | some [] => .noQuestions
  | some questions =>
    match play_questions initState questions inputs with
    | .finished st _rest => .done (end_game st env)
    | .exited c => .exited c
    | .blocked => .blocked
    | .error => .errorMessage

/-! Concrete fixtures used by witnesses and counterexamples. -/

/-- A four-option question record as served by the Gateway: options
listed 0-based, `correctAnswerIndex = 2`, `allOptions[2] = correctAnswer`,
difficulty 2 (integer form). -/
def qDemo : QuizQuestion :=
  ⟨"Which gospel opens with the Word?", "John", ["Matthew", "Mark", "Luke"],
   .ofInt 2, "multiple_choice", ["gospels"], "John 1:1",
   ["Matthew", "Mark", "John", "Luke"], 2⟩

/-- A second question, difficulty 3 stored in textual form. -/
def qDemo3 : QuizQuestion :=
  ⟨"Who led Israel out of Egypt?", "Moses", ["Aaron", "Joshua", "David"],
   .ofStr "3", "multiple_choice", ["exodus"], "Exodus 3:10",
   ["Aaron", "Moses", "Joshua", "David"], 1⟩

/-! Helper lemmas. -/

/-- Inversion for a completed round: a `RoundResult.answered` outcome of
`play_round` comes from a coerced difficulty, a validated choice that
parses to `k`, correctness `k - 1 = correctAnswerIndex`, and the
`round_update` state change. -/
lemma play_round_answered {st : SessionState} {q : QuizQuestion}
    {inputs : List InputEvent} {st' : SessionState} {b : Bool}
    {rest : List InputEvent}
    (h : play_round st q inputs = .answered st' b rest) :
    ∃ (d : Int) (choice : String) (k : Int),
      coerceDifficulty q.difficulty = some d ∧
      get_user_input (valid_choices q) inputs = some (.choice choice, rest) ∧
      pyInt? choice = some k ∧
      b = decide ((k - 1 : Int) = q.correctAnswerIndex) ∧
      st' = round_update st d b := by
  unfold play_round at h
  split at h
  · exact absurd h (by simp)
  next d hd =>
    split at h
    · exact absurd h (by simp)
    next c r hr => exact absurd h (by simp)
    next choice rest₀ hr =>
      split at h
      · exact absurd h (by simp)
      next k hk =>
        dsimp only at h
        split at h
        · exact absurd h (by simp)
        next ua hua =>
          rw [RoundResult.answered.injEq] at h
          obtain ⟨hst, hb, hrest⟩ := h
          exact ⟨d, choice, k, hd, hrest ▸ hr, hk, hb.symm, by rw [← hst, ← hb]⟩

/-! Claim theorems. -/

/-- C1: in every question round, awarded points are difficulty times ten
when the selected 0-based index equals the correct-answer index and zero
otherwise, and awarded stars are the difficulty when correct and zero
otherwise; the behaviour is identical whether the difficulty field arrives
as an integer or as a textual representation of the same integer (any
string that Python int() parses to that value). -/
theorem c1_scoring (st : SessionState) (q : QuizQuestion)
    (inputs : List InputEvent) (d : Int) (s : String)
    (hs : pyInt? s = some d) :
    play_round st { q with difficulty := .ofStr s } inputs
      = play_round st { q with difficulty := .ofInt d } inputs ∧
    ∀ st' b rest,
      play_round st { q with difficulty := .ofInt d } inputs = .answered st' b rest →
      (st'.score - st.score = if b then d * 10 else 0) ∧
      (st'.stars_earned - st.stars_earned = if b then d else 0) := by
  constructor
  · unfold play_round
    rw [show coerceDifficulty ({ q with difficulty := .ofStr s } : QuizQuestion).difficulty
          = some d from hs,
        show coerceDifficulty ({ q with difficulty := .ofInt d } : QuizQuestion).difficulty
          = some d from rfl]
    rfl
  · intro st' b rest h
    obtain ⟨d', choice, k, hd', hin, hk, hb, hst⟩ := play_round_answered h
    have hdd : d = d' := by
      injection (show (some d : Option Int) = some d' from hd'.symm ▸ rfl)
    subst hdd
    subst hst
    cases b
    · exact ⟨show st.score - st.score = 0 by omega,
             show st.stars_earned - st.stars_earned = 0 by omega⟩
    · exact ⟨show st.score + d * 10 - st.score = d * 10 by omega,
             show st.stars_earned + d - st.stars_earned = d by omega⟩

/-- Witness for C1 at difficulty 3 in integer and textual form, on a
correctly answered round. -/
theorem c1_witness :
    play_round initState { qDemo with difficulty := .ofStr "2" } [.line "3"]
      = play_round initState { qDemo with difficulty := .ofInt 2 } [.line "3"] ∧
    ∀ st' b rest,
      play_round initState { qDemo with difficulty := .ofInt 2 } [.line "3"]
        = .answered st' b rest →
      (st'.score - initState.score = if b then 2 * 10 else 0) ∧
      (st'.stars_earned - initState.stars_earned = if b then 2 else 0) :=
  c1_scoring initState qDemo [.line "3"] 2 "2" (by decide)

/-- C2: code behaviour at the failing input.  With stars earned, a network
failure (URLError) or a non-success HTTP response during the reward
submission makes `_post` call `sys.exit(1)`; the resulting `SystemExit`
is not an `Exception`, so the handler in `end_game` cannot catch it and
the process aborts instead of warning.  Only a 2xx response whose body
carries a falsy `success` field is degraded to the specified warning with
the session state untouched. -/
theorem c2_submission_failure_aborts :
    end_game ⟨30, 3, 2, 3⟩ .urlError = .exited 1 ∧
    end_game ⟨30, 3, 2, 3⟩ (.httpError 500) = .exited 1 ∧
    end_game ⟨30, 3, 2, 3⟩ (.ok false none)
      = .completed (some ⟨3, "Quiz game completed - 2/3 correct"⟩) true ⟨30, 3, 2, 3⟩ := by
  decide

/-- C3: code behaviour at the failing input.  A user interrupt while the
program awaits the round-2 selection (after round 1 earned 2 stars) makes
`get_user_input` call `sys.exit(0)`; the `SystemExit` bypasses the
`except KeyboardInterrupt` handler of `start`, so the game ends with exit
code 0 — the summary is never rendered and no reward submission is
attempted for the accumulated stars. -/
theorem c3_interrupt_at_prompt_skips_summary :
    start (some [qDemo, qDemo3]) [.line "3", .interrupt] (.ok true none) = .exited 0 := by
  decide

/-- C4: the end-of-game accuracy equals 100 times correct-count over
rounds-played when at least one round was played, and is 0 with no
division when no round was played.  The one-decimal percentage shown in
the summary is the rendering of this exact value. -/
theorem c4_accuracy (st : SessionState) :
    (0 < st.total_questions →
      accuracy st = 100 * (st.correct_answers : ℚ) / (st.total_questions : ℚ)) ∧
    (st.total_questions = 0 → accuracy st = 0) := by
  constructor
  · intro h
    unfold accuracy
    rw [if_pos h]
    ring
  · intro h
    unfold accuracy
    rw [if_neg (by omega)]

/-- Witness for C4: two correct out of three rounds gives 200/3 percent,
and the empty session gives 0. -/
theorem c4_witness :
    (accuracy ⟨30, 3, 2, 3⟩ = 100 * ((2 : ℕ) : ℚ) / ((3 : ℕ) : ℚ)) ∧
    accuracy ⟨0, 0, 0, 0⟩ = 0 :=
  ⟨(c4_accuracy ⟨30, 3, 2, 3⟩).1 (by decide), (c4_accuracy ⟨0, 0, 0, 0⟩).2 rfl⟩

/-- C5: invalid selection inputs (not parsing to a number in range, hence
not in the valid-choices list) are consumed by the re-prompt loop without
advancing the round or touching the session state: prefixing any run of
invalid lines leaves both the input validation and the whole round
unchanged. -/
theorem c5_invalid_input (st : SessionState) (q : QuizQuestion)
    (bad : List String) (inputs : List InputEvent)
    (hopts : q.allOptions ≠ [])
    (hbad : ∀ s ∈ bad, normalize s ∉ valid_choices q) :
    get_user_input (valid_choices q) (bad.map InputEvent.line ++ inputs)
      = get_user_input (valid_choices q) inputs ∧
    play_round st q (bad.map InputEvent.line ++ inputs) = play_round st q inputs := by
  have hvne : (valid_choices q).isEmpty = false := by
    match hq : q.allOptions with
    | [] => exact absurd hq hopts
    | a :: as => simp [valid_choices, hq, List.range_succ_eq_map]
  have key : ∀ (bs : List String), (∀ s ∈ bs, normalize s ∉ valid_choices q) →
      get_user_input (valid_choices q) (bs.map InputEvent.line ++ inputs)
        = get_user_input (valid_choices q) inputs := by
    intro bs
    induction bs with
    | nil => intro _; rfl
    | cons s bs ih =>
      intro hb
      have hs : normalize s ∉ valid_choices q := hb s (List.mem_cons_self s bs)
      simp only [List.map_cons, List.cons_append, get_user_input]
      rw [if_neg]
      · exact ih fun t ht => hb t (List.mem_cons_of_mem s ht)
      · rintro (hc | hc)
        · rw [hvne] at hc
          exact Bool.false_ne_true hc
        · exact hs hc
  refine ⟨key bad hbad, ?_⟩
  unfold play_round
  rw [key bad hbad]

/-- Witness for C5: a zero, an out-of-range number, a non-numeric string
and a stray letter are all skipped before the valid selection 3. -/
theorem c5_witness :
    get_user_input (valid_choices qDemo)
        ((["0", "7", "abc", " x "].map InputEvent.line) ++ [InputEvent.line "3"])
      = get_user_input (valid_choices qDemo) [InputEvent.line "3"] ∧
    play_round initState qDemo
        ((["0", "7", "abc", " x "].map InputEvent.line) ++ [InputEvent.line "3"])
      = play_round initState qDemo [InputEvent.line "3"] :=
  c5_invalid_input initState qDemo ["0", "7", "abc", " x "] [InputEvent.line "3"]
    (by decide) (by decide)

/-- C6: after an incorrect answer on a round that is not the last, the
continue/stop prompt is consulted; answering n or no ends the loop with
the state of the rounds actually played (remaining questions are neither
presented nor scored), and the end-of-session path still runs, submitting
the accumulated stars exactly when they are positive. -/
theorem c6_early_stop (st st' : SessionState) (q q2 : QuizQuestion)
    (qs : List QuizQuestion) (inputs rest rest' : List InputEvent) (c : String)
    (hround : play_round st q inputs = .answered st' false rest)
    (hprompt : get_user_input ["y", "n", "yes", "no"] rest = some (.choice c, rest'))
    (hstop : c = "n" ∨ c = "no") :
    play_questions st (q :: q2 :: qs) inputs = .finished st' rest' ∧
    ∀ bal, end_game st' (.ok true bal) =
      .completed
        (if st'.stars_earned > 0 then
           some ⟨st'.stars_earned, reward_reason st'.correct_answers st'.total_questions⟩
         else none) false st' := by
  constructor
  · simp only [play_questions, hround, hprompt]
    rw [if_pos hstop]
  · intro bal
    unfold end_game post_add_stars
    split_ifs with h <;> simp

/-- Witness for C6: with 2 stars from an earlier round, a wrong answer on
round 2 of 3 followed by n stops the session; the third question is never
played and the 2 accumulated stars are submitted. -/
theorem c6_witness :
    play_questions ⟨20, 1, 1, 2⟩ [qDemo, qDemo3] [.line "1", .line "n"]
      = .finished ⟨20, 2, 1, 2⟩ [] ∧
    ∀ bal, end_game ⟨20, 2, 1, 2⟩ (.ok true bal) =
      .completed
        (if (⟨20, 2, 1, 2⟩ : SessionState).stars_earned > 0 then
           some ⟨(⟨20, 2, 1, 2⟩ : SessionState).stars_earned, reward_reason 1 2⟩
         else none) false ⟨20, 2, 1, 2⟩ :=
  c6_early_stop ⟨20, 1, 1, 2⟩ ⟨20, 2, 1, 2⟩ qDemo qDemo3 [] [.line "1", .line "n"]
    [.line "n"] [] "n" (by decide) (by decide) (Or.inl rfl)

/-- C7: a missing or empty question batch means no session starts: the
game prints the no-questions message and returns before any round is
played and before any reward submission, whatever the input stream and
network would have done. -/
theorem c7_no_questions :
    ∀ (inputs : List InputEvent) (env : PostEnv),
      start none inputs env = .noQuestions ∧
      start (some []) inputs env = .noQuestions :=
  fun _ _ => ⟨rfl, rfl⟩

/-- C8: at session end a reward submission is sent exactly when the earned
stars are positive, and it carries the star amount and the reason string
built from the correct and played counts; a zero-star session sends
nothing.  (Stated for a POST that obtains a response; a transport failure
aborts, see C2.) -/
theorem c8_reward_guard (st : SessionState) (success : Bool) (bal : Option Int) :
    end_game st (.ok success bal) =
      .completed
        (if st.stars_earned > 0 then
           some ⟨st.stars_earned, reward_reason st.correct_answers st.total_questions⟩
         else none)
        (decide (st.stars_earned > 0) && !success) st := by
  unfold end_game post_add_stars
  split_ifs with h
  · simp [h]
  · simp [h]

/-- C9: a completed round is marked correct exactly when the selected
value minus one equals the correct-answer index; in particular, on a
four-option question with correct-answer index 2, selection 3 is correct
and each of 1, 2, 4 is incorrect. -/
theorem c9_selection :
    (∀ (st : SessionState) (q : QuizQuestion) (inputs rest : List InputEvent)
       (st' : SessionState) (b : Bool) (choice : String) (k : Int),
       play_round st q inputs = .answered st' b rest →
       get_user_input (valid_choices q) inputs = some (.choice choice, rest) →
       pyInt? choice = some k →
       (b = true ↔ k - 1 = q.correctAnswerIndex)) ∧
    (∀ s : Nat, s ≤ 4 → 1 ≤ s →
       play_round initState qDemo [.line (toString s)]
         = .answered (round_update initState 2 (decide (s = 3))) (decide (s = 3)) []) := by
  constructor
  · intro st q inputs rest st' b choice k h hin hk
    obtain ⟨d, choice', k', hd, hin', hk', hb, hst⟩ := play_round_answered h
    rw [hin] at hin'
    simp only [Option.some.injEq, Prod.mk.injEq, InputResult.choice.injEq] at hin'
    obtain ⟨hc, -⟩ := hin'
    subst hc
    rw [hk] at hk'
    injection hk' with hkk
    subst hkk
    rw [hb]
    exact decide_eq_true_iff
  · decide

/-- Witness for C9: selection 3 on the demo question is marked correct. -/
theorem c9_witness :
    (true = true) ↔ ((3 : Int) - 1 = qDemo.correctAnswerIndex) :=
  c9_selection.1 initState qDemo [.line "3"] [] (round_update initState 2 true) true "3" 3
    (by decide) (by decide) (by decide)

/-- C10: the four session counters start at zero; any completed round on a
question whose coerced difficulty lies in 1..5 leaves every counter
non-decreasing and preserves both invariants: score equals ten times the
earned stars, and the correct count never exceeds the rounds played. -/
theorem c10_invariants :
    (initState.score = 0 ∧ initState.total_questions = 0 ∧
     initState.correct_answers = 0 ∧ initState.stars_earned = 0) ∧
    ∀ (st : SessionState) (q : QuizQuestion) (inputs rest : List InputEvent)
      (st' : SessionState) (b : Bool) (d : Int),
      coerceDifficulty q.difficulty = some d → 1 ≤ d → d ≤ 5 →
      play_round st q inputs = .answered st' b rest →
      (st.score ≤ st'.score ∧ st.total_questions ≤ st'.total_questions ∧
       st.correct_answers ≤ st'.correct_answers ∧ st.stars_earned ≤ st'.stars_earned) ∧
      (st.score = 10 * st.stars_earned → st'.score = 10 * st'.stars_earned) ∧
      (st.correct_answers ≤ st.total_questions →
        st'.correct_answers ≤ st'.total_questions) := by
  refine ⟨⟨rfl, rfl, rfl, rfl⟩, ?_⟩
  intro st q inputs rest st' b d hd h1 h5 h
  obtain ⟨d', choice, k, hd', hin, hk, hb, hst⟩ := play_round_answered h
  have hdd : d = d' := by
    injection (show (some d : Option Int) = some d' from hd ▸ hd')
  subst hdd
  subst hst
  cases b
  · refine ⟨⟨le_refl _, Nat.le_succ _, le_refl _, le_refl _⟩, fun hs => hs, fun hc => ?_⟩
    show st.correct_answers ≤ st.total_questions + 1
    omega
  · refine ⟨⟨?_, ?_, ?_, ?_⟩, fun hs => ?_, fun hc => ?_⟩
    · show st.score ≤ st.score + d * 10
      omega
    · show st.total_questions ≤ st.total_questions + 1
      omega
    · show st.correct_answers ≤ st.correct_answers + 1
      omega
    · show st.stars_earned ≤ st.stars_earned + d
      omega
    · show st.score + d * 10 = 10 * (st.stars_earned + d)
      omega
    · show st.correct_answers + 1 ≤ st.total_questions + 1
      omega

/-- Witness for C10: one correct round at difficulty 2 from the zeroed
state keeps every counter non-decreasing and both invariants intact. -/
theorem c10_witness :
    ((initState.score ≤ (20 : Int) ∧ initState.total_questions ≤ (1 : Nat) ∧
      initState.correct_answers ≤ (1 : Nat) ∧ initState.stars_earned ≤ (2 : Int)) ∧
     (initState.score = 10 * initState.stars_earned → (20 : Int) = 10 * 2) ∧
     (initState.correct_answers ≤ initState.total_questions → (1 : Nat) ≤ 1)) :=
  c10_invariants.2 initState qDemo [.line "3"] [] ⟨20, 1, 1, 2⟩ true 2
    rfl (by decide) (by decide) (by decide)

end BijbelQuiz
